import Mathlib

/-!
Verification development for the imdbarr extraction-and-resolution pipeline.

The definitions below are a shallow embedding of the TypeScript source:

- the content-type classifier parseIMDBType, in its two variants
  (src/src/tvdb.ts lines 244-268, the list-page variant with the
  episode-word and season-word rules, and src/src/imdb.ts lines 58-77,
  the older variant without them);
- the record extractor parseIMDBListPage (src/src/tvdb.ts lines 544-735),
  modelled over an abstract page: the nodes its three passes visit;
- the page aggregator fetchIMDBList (src/src/tvdb.ts lines 419-539);
- the identifier resolver resolveIMDBToTVDB with its TTL cache and the
  batch converter convertToSonarrFormat (src/src/tvdb.ts lines 18-190).

JavaScript strings are modelled as Lists of Char; toLowerCase, trim and
the whitespace class are modelled over ASCII (the regexes in the source
only involve ASCII characters).  Regular-expression tests are embedded
as explicit scanners that follow the regex semantics, including word
boundaries and the backtracking of the optional groups.
-/

/-- Word character class of JavaScript regexes: [A-Za-z0-9_]. -/
def isWordChar (c : Char) : Bool :=
  ('a' ≤ c && c ≤ 'z') || ('A' ≤ c && c ≤ 'Z') || ('0' ≤ c && c ≤ '9') || c = '_'

/-- ASCII part of the JavaScript whitespace class backslash-s. -/
def isSpaceCh (c : Char) : Bool :=
  c = ' ' || c = '\t' || c = '\n' || c = '\r' || c.toNat = 11 || c.toNat = 12

/-- ASCII lowering, modelling String.prototype.toLowerCase on the
characters the classifier inspects. -/
def jsLower (c : Char) : Char :=
  if 'A' ≤ c ∧ c ≤ 'Z' then Char.ofNat (c.toNat + 32) else c

/-- Containment of a needle in a haystack, modelling String.includes. -/
def containsSub : List Char → List Char → Bool
  | n, [] => n.isEmpty
  | n, c :: t => List.isPrefixOf n (c :: t) || containsSub n t

/-- Case-insensitive literal match: strips a lowercase pattern from the
front of the input, comparing through jsLower; returns the rest. -/
def stripCiL : List Char → List Char → Option (List Char)
  | [], s => some s
  | _ :: _, [] => none
  | p :: ps, c :: cs => if jsLower c = p then stripCiL ps cs else none

/-- Case-sensitive literal strip. -/
def stripExact : List Char → List Char → Option (List Char)
  | [], s => some s
  | _ :: _, [] => none
  | p :: ps, c :: cs => if c = p then stripExact ps cs else none

/-- Word boundary before the current position, given the previous
character (none at the start of the string). -/
def boundaryOk : Option Char → Bool
  | none => true
  | some c => !isWordChar c

/-- Scanner for an unanchored regex whose first character is a word
character and which starts with a word boundary: tries the pattern p at
every position whose preceding character makes a boundary. -/
def scanB (p : List Char → Bool) : Option Char → List Char → Bool
  | prev, [] => boundaryOk prev && p []
  | prev, c :: t => (boundaryOk prev && p (c :: t)) || scanB p (some c) t

/-- Scanner without a leading boundary requirement. -/
def scanAny (p : List Char → Bool) : List Char → Bool
  | [] => p []
  | c :: t => p (c :: t) || scanAny p t

/-- Tail matcher for an optional letter s followed by a word boundary,
shared by the season and episode word patterns (with backtracking: if
consuming the s breaks the boundary, the empty alternative also fails
because s itself is a word character). -/
def optSBoundary : List Char → Bool
  | [] => true
  | c :: t =>
    if jsLower c = 's' then
      match t with
      | [] => true
      | d :: _ => !isWordChar d
    else !isWordChar c

/-- Matcher at one position for the word-season pattern season(s) with a
trailing boundary. -/
def seasonAt (s : List Char) : Bool :=
  match stripCiL "season".data s with
  | some r => optSBoundary r
  | none => false

/-- Test for the regex of a whole word season or seasons. -/
def testWordSeason (s : List Char) : Bool := scanB seasonAt none s

/-- Matcher at one position for the word episode(s) with trailing
boundary. -/
def episodeAt (s : List Char) : Bool :=
  match stripCiL "episode".data s with
  | some r => optSBoundary r
  | none => false

/-- Test for the regex of a whole word episode or episodes. -/
def testWordEpisode (s : List Char) : Bool := scanB episodeAt none s

/-- After the digits and spaces of the episode-count pattern: the letters
ep, an optional s, and a word boundary. -/
def epSTail (s : List Char) : Bool :=
  match stripCiL "ep".data s with
  | some r => optSBoundary r
  | none => false

/-- Space consumption inside the episode-count pattern. -/
def epsSpaces : List Char → Bool
  | [] => false
  | c :: t => if isSpaceCh c then epsSpaces t else epSTail (c :: t)

/-- Digit consumption inside the episode-count pattern. -/
def epsDigits : List Char → Bool
  | [] => false
  | c :: t => if c.isDigit then epsDigits t else epsSpaces (c :: t)

/-- Matcher at one position for digits, optional spaces, ep, optional s,
trailing boundary. -/
def epsAt : List Char → Bool
  | [] => false
  | c :: t => c.isDigit && epsDigits t

/-- Test for the episode-count regex with word boundaries on both
sides, case-insensitive. -/
def testEps (s : List Char) : Bool := scanB epsAt none s

/-- Group tail of the duration pattern: digits then the literal m,
case-sensitive. -/
def durGroupRest : List Char → Option (List Char)
  | [] => none
  | 'm' :: t => some t
  | c :: t => if c.isDigit then durGroupRest t else none

/-- Optional group of the duration pattern: spaces, one or more digits,
then m. -/
def durGroup (s : List Char) : Option (List Char) :=
  match s.dropWhile isSpaceCh with
  | [] => none
  | c :: t => if c.isDigit then durGroupRest t else none

/-- Non-word character or end of input at the head. -/
def nonWordHead : List Char → Bool
  | [] => true
  | c :: _ => !isWordChar c

/-- After the h of the duration pattern: the optional minutes group and
the trailing boundary, with backtracking to the empty group. -/
def durAfterH (s : List Char) : Bool :=
  (match durGroup s with
   | some r => nonWordHead r
   | none => false) || nonWordHead s

/-- Digit consumption before the h of the duration pattern. -/
def durDigits : List Char → Bool
  | [] => false
  | 'h' :: t => durAfterH t
  | c :: t => if c.isDigit then durDigits t else false

/-- Matcher at one position for the duration pattern. -/
def durAt : List Char → Bool
  | [] => false
  | c :: t => c.isDigit && durDigits t

/-- Test for the duration regex digits h optional-minutes with word
boundaries (case-sensitive in the source). -/
def testDuration (s : List Char) : Bool := scanB durAt none s

/-- First alternative of the exclusion regex: a boundary then ep; the
optional s cannot affect whether a match exists. -/
def epAt (s : List Char) : Bool := (stripCiL "ep".data s).isSome

/-- Test for the exclusion regex of rule 8 in the list-page classifier.
The alternation associates as (boundary ep s?) or (episode s?) or
(season s? boundary): the middle alternative has no boundaries at all
and the last one only a trailing boundary. -/
def testExclusion (s : List Char) : Bool :=
  scanB epAt none s
    || containsSub "episode".data (s.map jsLower)
    || scanAny seasonAt s

/-- Content-type enumeration of the data model (IMDBItem type field). -/
inductive IMDBType
  | movie
  | tvSeries
  | tvMiniSeries
  | tvSpecial
  | video
  | short
  | unknown
deriving DecidableEq

/-- Classifier of src/src/tvdb.ts lines 244-268 (the list-page variant):
ordered substring rules, then the episode-count, episode-word and
season-word patterns, then the duration pattern guarded by the
exclusion regex. -/
def parseIMDBType (metadata : String) : IMDBType :=
  if containsSub "tv series".data (metadata.data.map jsLower) then .tvSeries
  else if (containsSub "tv mini series".data (metadata.data.map jsLower)
      || containsSub "mini series".data (metadata.data.map jsLower)
      || containsSub "mini-series".data (metadata.data.map jsLower)) then .tvMiniSeries
  else if containsSub "tv special".data (metadata.data.map jsLower) then .tvSpecial
  else if containsSub "video".data (metadata.data.map jsLower) then .video
  else if containsSub "short".data (metadata.data.map jsLower) then .short
  else if testEps metadata.data then .tvSeries
  else if testWordEpisode metadata.data then .tvSeries
  else if testWordSeason metadata.data then .tvSeries
  else if testDuration metadata.data && !testExclusion metadata.data then .movie
  else .unknown

/-- Loose episode-count matcher of the older classifier: digits, spaces,
ep, with no word boundaries (regex without backslash-b). -/
def epsLooseTail (s : List Char) : Bool := (stripCiL "ep".data s).isSome

/-- Space consumption in the loose episode-count pattern. -/
def epsLooseSpaces : List Char → Bool
  | [] => false
  | c :: t => if isSpaceCh c then epsLooseSpaces t else epsLooseTail (c :: t)

/-- Digit consumption in the loose episode-count pattern. -/
def epsLooseDigits : List Char → Bool
  | [] => false
  | c :: t => if c.isDigit then epsLooseDigits t else epsLooseSpaces (c :: t)

/-- Matcher at one position for the loose episode-count pattern. -/
def epsLooseAt : List Char → Bool
  | [] => false
  | c :: t => c.isDigit && epsLooseDigits t

/-- Test for the loose episode-count regex of the older classifier. -/
def testEpsLoose (s : List Char) : Bool := scanAny epsLooseAt s

/-- After the h in the end-anchored duration pattern of the older
classifier: optional minutes group, then end of string. -/
def durEndAfterH (s : List Char) : Bool :=
  (match durGroup s with
   | some r => r.isEmpty
   | none => false) || s.isEmpty

/-- Digit consumption before the h in the end-anchored duration
pattern. -/
def durEndDigits : List Char → Bool
  | [] => false
  | 'h' :: t => durEndAfterH t
  | c :: t => if c.isDigit then durEndDigits t else false

/-- Matcher at one position for the end-anchored duration pattern. -/
def durEndAt : List Char → Bool
  | [] => false
  | c :: t => c.isDigit && durEndDigits t

/-- Test for the end-anchored duration regex of the older classifier. -/
def testDurationEnd (s : List Char) : Bool := scanAny durEndAt s

/-- Whole-string matcher for the digits-then-m pattern of the older
classifier (anchored on both sides). -/
def minutesRest : List Char → Bool
  | [] => false
  | 'm' :: t => t.isEmpty
  | c :: t => c.isDigit && minutesRest t

/-- Matcher for the full digits-then-m regex. -/
def minutesOnly : List Char → Bool
  | [] => false
  | c :: t => c.isDigit && minutesRest t

/-- Trim of ASCII whitespace at both ends, modelling String.trim. -/
def trimCh (s : List Char) : List Char :=
  ((s.dropWhile isSpaceCh).reverse.dropWhile isSpaceCh).reverse

/-- Classifier of src/src/imdb.ts lines 58-77 (the older variant): same
substring rules, a loose episode-count pattern, and an end-anchored
duration pattern; it has no episode-word and no season-word rule. -/
def parseIMDBTypeOld (metadata : String) : IMDBType :=
  if containsSub "tv series".data (metadata.data.map jsLower) then .tvSeries
  else if (containsSub "tv mini series".data (metadata.data.map jsLower)
      || containsSub "mini series".data (metadata.data.map jsLower)
      || containsSub "mini-series".data (metadata.data.map jsLower)) then .tvMiniSeries
  else if containsSub "tv special".data (metadata.data.map jsLower) then .tvSpecial
  else if containsSub "video".data (metadata.data.map jsLower) then .video
  else if containsSub "short".data (metadata.data.map jsLower) then .short
  else if testEpsLoose metadata.data then .tvSeries
  else if testDurationEnd (trimCh metadata.data) || minutesOnly (trimCh metadata.data) then .movie
  else .unknown

/-- Counterexample to claim C1 as stated: the metadata string "1 season"
contains the whole word season and none of the substrings or patterns of
the earlier rules, yet the older classifier variant (src/src/imdb.ts
parseIMDBType, which omits the season-word rule) returns Unknown, not
Series; the list-page variant returns Series on the same input. -/
theorem c1_counterexample :
    containsSub "tv series".data ("1 season".data.map jsLower) = false
    ∧ (containsSub "tv mini series".data ("1 season".data.map jsLower)
        || containsSub "mini series".data ("1 season".data.map jsLower)
        || containsSub "mini-series".data ("1 season".data.map jsLower)) = false
    ∧ containsSub "tv special".data ("1 season".data.map jsLower) = false
    ∧ containsSub "video".data ("1 season".data.map jsLower) = false
    ∧ containsSub "short".data ("1 season".data.map jsLower) = false
    ∧ testEps "1 season".data = false
    ∧ testWordEpisode "1 season".data = false
    ∧ testWordSeason "1 season".data = true
    ∧ parseIMDBTypeOld "1 season" = .unknown
    ∧ parseIMDBType "1 season" = .tvSeries := by
  decide

/-- Amended claim C1: for the list-page classifier variant
(src/src/tvdb.ts parseIMDBType), every metadata string that contains the
whole word season or seasons and matches none of the earlier rules
(the five substring rules, the episode-count pattern and the
episode-word pattern) classifies as Series.  The older variant
(src/src/imdb.ts) lacks the season-word rule, so the property does not
hold for it: on the counterexample input "1 season" it returns Unknown
(on other strings of the class its remaining rules may still fire). -/
theorem c1_season_word_series (md : String)
    (h1 : containsSub "tv series".data (md.data.map jsLower) = false)
    (h2 : (containsSub "tv mini series".data (md.data.map jsLower)
        || containsSub "mini series".data (md.data.map jsLower)
        || containsSub "mini-series".data (md.data.map jsLower)) = false)
    (h3 : containsSub "tv special".data (md.data.map jsLower) = false)
    (h4 : containsSub "video".data (md.data.map jsLower) = false)
    (h5 : containsSub "short".data (md.data.map jsLower) = false)
    (h6 : testEps md.data = false)
    (h7 : testWordEpisode md.data = false)
    (h8 : testWordSeason md.data = true) :
    parseIMDBType md = .tvSeries := by
  unfold parseIMDBType
  simp [h1, h2, h3, h4, h5, h6, h7, h8]

/-- Witness for c1_season_word_series at the input "3 seasons". -/
theorem c1_season_word_series_witness : parseIMDBType "3 seasons" = .tvSeries :=
  c1_season_word_series "3 seasons" (by decide) (by decide) (by decide) (by decide)
    (by decide) (by decide) (by decide) (by decide)

/-- Claim C6: in both classifier variants the episode-count rule
precedes the duration rule, so a metadata string matching both the
episode-count pattern of that variant and its duration pattern (and
none of the earlier substring rules) classifies as Series, not Movie. -/
theorem c6_episode_beats_duration :
    (∀ md : String,
      containsSub "tv series".data (md.data.map jsLower) = false →
      (containsSub "tv mini series".data (md.data.map jsLower)
        || containsSub "mini series".data (md.data.map jsLower)
        || containsSub "mini-series".data (md.data.map jsLower)) = false →
      containsSub "tv special".data (md.data.map jsLower) = false →
      containsSub "video".data (md.data.map jsLower) = false →
      containsSub "short".data (md.data.map jsLower) = false →
      testEps md.data = true →
      testDuration md.data = true →
      parseIMDBType md = .tvSeries)
    ∧ (∀ md : String,
      containsSub "tv series".data (md.data.map jsLower) = false →
      (containsSub "tv mini series".data (md.data.map jsLower)
        || containsSub "mini series".data (md.data.map jsLower)
        || containsSub "mini-series".data (md.data.map jsLower)) = false →
      containsSub "tv special".data (md.data.map jsLower) = false →
      containsSub "video".data (md.data.map jsLower) = false →
      containsSub "short".data (md.data.map jsLower) = false →
      testEpsLoose md.data = true →
      (testDurationEnd (trimCh md.data) || minutesOnly (trimCh md.data)) = true →
      parseIMDBTypeOld md = .tvSeries) := by
  constructor
  · intro md h1 h2 h3 h4 h5 h6 _h7
    unfold parseIMDBType
    simp [h1, h2, h3, h4, h5, h6]
  · intro md h1 h2 h3 h4 h5 h6 _h7
    unfold parseIMDBTypeOld
    simp [h1, h2, h3, h4, h5, h6]

/-- Witness for c6_episode_beats_duration at the input
"22 eps 1h 30m", which matches the episode-count and the duration
patterns of both variants. -/
theorem c6_episode_beats_duration_witness :
    parseIMDBType "22 eps 1h 30m" = .tvSeries
    ∧ parseIMDBTypeOld "22 eps 1h 30m" = .tvSeries :=
  ⟨c6_episode_beats_duration.1 "22 eps 1h 30m" (by decide) (by decide) (by decide)
      (by decide) (by decide) (by decide) (by decide),
   c6_episode_beats_duration.2 "22 eps 1h 30m" (by decide) (by decide) (by decide)
      (by decide) (by decide) (by decide) (by decide)⟩

/-- Content record of the data model (IMDBItem of src/src/types.ts). -/
structure IMDBItem where
  imdbId : String
  title : String
  type : IMDBType
  year : Option Nat
deriving DecidableEq

/-- Membership test on a list of seen ids, modelling Set.has on the
seenIds set of the extractor and the aggregator. -/
def hasId (id : String) : List String → Bool
  | [] => false
  | x :: t => if x = id then true else hasId id t

/-- JavaScript or-chain on possibly absent strings: an empty string is
falsy and falls through to the next alternative. -/
def jsOrS : Option String → Option String → Option String
  | some s, b => if s = "" then b else some s
  | none, b => b

/-- JavaScript or-chain on possibly absent numbers: zero is falsy and
falls through to the next alternative. -/
def jsOrN : Option Nat → Option Nat → Option Nat
  | some n, b => if n = 0 then b else some n
  | none, b => b

/-- Validation of a primary id against the anchored pattern tt followed
by one or more digits. -/
def ttValid (s : String) : Bool :=
  match s.data with
  | 't' :: 't' :: ds => !ds.isEmpty && ds.all Char.isDigit
  | _ => false

/-- Keeps a candidate id only when it matches the primary-id pattern. -/
def validTT : Option String → Option String
  | some s => if ttValid s then some s else none
  | none => none

/-- First-defined choice between two optional values. -/
def optOr : Option String → Option String → Option String
  | some a, _ => some a
  | none, b => b

/-- Numeric value of an ASCII digit. -/
def digitVal (c : Char) : Nat := c.toNat - 48

/-- Reads a year from the first four characters of an ISO date when they
are all digits, modelling the anchored four-digit regex test followed by
parseInt on the four-character prefix. -/
def parse4Digits (s : String) : Option Nat :=
  match s.data with
  | a :: b :: c :: d :: _ =>
    if a.isDigit && b.isDigit && c.isDigit && d.isDigit then
      some (digitVal a * 1000 + digitVal b * 100 + digitVal c * 10 + digitVal d)
    else none
  | _ => none

/-- Leading-digit parse, modelling parseInt on a short string: the value
of the maximal digit prefix, or none (NaN) when there is none. -/
def parseLeadingDigits (s : List Char) : Option Nat :=
  match s.takeWhile Char.isDigit with
  | [] => none
  | ds => some (ds.foldl (fun acc c => acc * 10 + digitVal c) 0)

/-- Object node of the embedded Next.js data island, as observed by the
recursive walk of extraction pass 1: the alternative fields the walk
probes on each object, absent when the object lacks them or they have
the wrong runtime type. -/
structure BlobNode where
  idField : Option String := none
  constField : Option String := none
  titleTextText : Option String := none
  originalTitleTextText : Option String := none
  titleField : Option String := none
  nameField : Option String := none
  titleTypeId : Option String := none
  titleTypeStr : Option String := none
  atTypeField : Option String := none
  releaseYearYear : Option Nat := none
  yearField : Option Nat := none
  releaseDate : Option String := none
deriving DecidableEq

/-- Primary id of a blob node: the id field when it matches the pattern,
else the const field when it matches, else none. -/
def nodeId (n : BlobNode) : Option String :=
  optOr (validTT n.idField) (validTT n.constField)

/-- Title of a blob node: first truthy among the four alternatives. -/
def nodeTitle (n : BlobNode) : Option String :=
  jsOrS n.titleTextText (jsOrS n.originalTitleTextText (jsOrS n.titleField (jsOrS n.nameField none)))

/-- Raw type hint of a blob node: first truthy among titleType.id,
titleType as a string, and the at-type field. -/
def nodeRawType (n : BlobNode) : Option String :=
  jsOrS n.titleTypeId (jsOrS n.titleTypeStr (jsOrS n.atTypeField none))

/-- Content type inferred from the raw type hint by the substring rules
of pass 1. -/
def nodeType (n : BlobNode) : IMDBType :=
  match nodeRawType n with
  | none => .unknown
  | some rt =>
    if containsSub "tvmini".data (rt.data.map jsLower) then .tvMiniSeries
    else if containsSub "tvseries".data (rt.data.map jsLower)
        || rt.data.map jsLower = "tvseries".data then .tvSeries
    else if containsSub "movie".data (rt.data.map jsLower)
        || rt.data.map jsLower = "feature".data then .movie
    else if containsSub "special".data (rt.data.map jsLower) then .tvSpecial
    else if containsSub "video".data (rt.data.map jsLower) then .video
    else if containsSub "short".data (rt.data.map jsLower) then .short
    else .unknown

/-- Year of a blob node: the nested release-year field, else the flat
year field, else the four-digit prefix of the release date, chained with
JavaScript or so a zero falls through. -/
def nodeYear (n : BlobNode) : Option Nat :=
  jsOrN n.releaseYearYear (jsOrN n.yearField
    (match n.releaseDate with
     | some rd => parse4Digits rd
     | none => none))

/-- Step of extraction pass 1 (the pushItem closure): collect the node
when it has a valid unseen id and a truthy title. -/
def pushItem (st : List IMDBItem × List String) (node : BlobNode) :
    List IMDBItem × List String :=
  match nodeId node with
  | none => st
  | some id =>
    if hasId id st.2 then st
    else
      match nodeTitle node with
      | none => st
      | some title =>
        (st.1 ++ [⟨id, title, nodeType node, nodeYear node⟩], st.2 ++ [id])

/-- Anchor observed by extraction pass 2, with the texts the pass reads
from the surrounding item container. -/
structure Anchor where
  href : String
  text : String
  containerTitle : String
  containerText : String
deriving DecidableEq

/-- Finds the first segment of the form slash title slash tt-digits in a
href and returns the captured id (tt plus the maximal digit run). -/
def extractTTCh : List Char → Option (List Char)
  | [] => none
  | c :: t =>
    match stripExact "/title/tt".data (c :: t) with
    | some rest =>
      match rest.takeWhile Char.isDigit with
      | [] => extractTTCh t
      | ds => some ds
    | none => extractTTCh t

/-- String wrapper for the primary-id capture from a href or url. -/
def extractTT (s : String) : Option String :=
  (extractTTCh s.data).map (fun ds => String.mk ('t' :: 't' :: ds))

/-- Trim wrapper on String. -/
def strTrim (s : String) : String := String.mk (trimCh s.data)

/-- Test for a pure list-index marker: digits with an optional trailing
dot (anchored on both sides). -/
def isNumDot (s : String) : Bool :=
  match s.data.takeWhile Char.isDigit with
  | [] => false
  | ds => s.data.drop ds.length = [] || s.data.drop ds.length = ['.']

/-- Removal of a leading ordinal prefix digits-dot-spaces, modelling the
anchored replace in pass 2. -/
def stripOrdinal (s : String) : String :=
  match s.data.takeWhile Char.isDigit with
  | [] => s
  | ds =>
    match s.data.drop ds.length with
    | '.' :: rest => String.mk (rest.dropWhile isSpaceCh)
    | _ => s

/-- Matcher at one position for a year 1900-2099 with word boundaries:
19 or 20, two more digits, and a non-word character or end after. -/
def yearAt : List Char → Option Nat
  | a :: b :: c :: d :: rest =>
    if ((a = '1' && b = '9') || (a = '2' && b = '0')) && c.isDigit && d.isDigit
        && nonWordHead rest then
      some (digitVal a * 1000 + digitVal b * 100 + digitVal c * 10 + digitVal d)
    else none
  | _ => none

/-- Leftmost year match in a container text, with the leading word
boundary tracked through the previous character. -/
def firstYearCh : Option Char → List Char → Option Nat
  | prev, s =>
    match (if boundaryOk prev then yearAt s else none) with
    | some y => some y
    | none =>
      match s with
      | [] => none
      | c :: t => firstYearCh (some c) t

/-- First year in the container text of an anchor. -/
def firstYear (s : String) : Option Nat := firstYearCh none s.data

/-- Step of extraction pass 2: collect an anchor whose href contains a
primary id not seen yet, with the title fallback chain, the ordinal
strip, the year scan and the free-text classifier. -/
def anchorStep (st : List IMDBItem × List String) (a : Anchor) :
    List IMDBItem × List String :=
  match extractTT a.href with
  | none => st
  | some id =>
    if hasId id st.2 then st
    else
      let t0 := strTrim a.text
      let t1 := if t0 = "" || isNumDot t0 then strTrim a.containerTitle else t0
      let t2 := stripOrdinal t1
      (st.1 ++ [⟨id, if t2 = "" then "Unknown" else t2,
                 parseIMDBType a.containerText, firstYear a.containerText⟩],
       st.2 ++ [id])

/-- Entry of an embedded linked-data item list, as observed by
extraction pass 3. -/
structure LDEntry where
  url : Option String := none
  atType : Option String := none
  name : Option String := none
  datePublished : Option String := none
deriving DecidableEq

/-- Content type derived from the type annotation of a linked-data
entry. -/
def ldMappedType (e : LDEntry) : IMDBType :=
  if containsSub "tvminiseries".data ((e.atType.getD "").data.map jsLower) then .tvMiniSeries
  else if containsSub "tvseries".data ((e.atType.getD "").data.map jsLower) then .tvSeries
  else if containsSub "movie".data ((e.atType.getD "").data.map jsLower) then .movie
  else if containsSub "tvepisode".data ((e.atType.getD "").data.map jsLower) then .unknown
  else .unknown

/-- JavaScript falsiness of a stored year: absent or zero. -/
def yearFalsy : Option Nat → Bool
  | none => true
  | some n => n == 0

/-- Truthiness of the datePublished field of a linked-data entry. -/
def ldDPTruthy (e : LDEntry) : Bool :=
  match e.datePublished with
  | some dp => dp ≠ ""
  | none => false

/-- Year parsed from the four-character prefix of datePublished with
parseInt semantics (none models NaN). -/
def ldDPYear (e : LDEntry) : Option Nat :=
  match e.datePublished with
  | some dp => parseLeadingDigits (dp.data.take 4)
  | none => none

/-- Mutation pass 3 applies to an item that already exists: the type is
replaced only when the linked-data type is concrete, and the year is
replaced only when the stored year is falsy and the entry carries a
publication date. -/
def ldUpd (e : LDEntry) (it : IMDBItem) : IMDBItem :=
  { imdbId := it.imdbId
    title := it.title
    type := if ldMappedType e ≠ .unknown then ldMappedType e else it.type
    year := if yearFalsy it.year && ldDPTruthy e then ldDPYear e else it.year }

/-- Applies a function to the first item carrying the given id,
modelling the in-place mutation of the object found by Array.find. -/
def updateFirst (id : String) (f : IMDBItem → IMDBItem) : List IMDBItem → List IMDBItem
  | [] => []
  | it :: rest => if it.imdbId = id then f it :: rest else it :: updateFirst id f rest

/-- Existence test by primary id, modelling Array.find used as a
predicate. -/
def hasItem (id : String) : List IMDBItem → Bool
  | [] => false
  | it :: rest => if it.imdbId = id then true else hasItem id rest

/-- Step of extraction pass 3: enrich an existing item or insert a new
one from a linked-data entry. -/
def ldStep (st : List IMDBItem × List String) (e : LDEntry) :
    List IMDBItem × List String :=
  match e.url with
  | none => st
  | some u =>
    if u = "" then st
    else
      match extractTT u with
      | none => st
      | some id =>
        if hasItem id st.1 then (updateFirst id (ldUpd e) st.1, st.2)
        else if hasId id st.2 then st
        else
          (st.1 ++ [⟨id,
                     (match e.name with
                      | some nm => if nm = "" then "Unknown" else nm
                      | none => "Unknown"),
                     ldMappedType e,
                     if ldDPTruthy e then ldDPYear e else none⟩],
           st.2 ++ [id])

/-- Abstract page input of the record extractor: the object nodes the
structured-blob walk visits in order, the title anchors the markup scan
selects in order, and the linked-data entries in order. -/
structure PageModel where
  blobNodes : List BlobNode
  anchors : List Anchor
  ldEntries : List LDEntry

/-- State (items and seen ids) after extraction passes 1 and 2. -/
def pass12State (pm : PageModel) : List IMDBItem × List String :=
  pm.anchors.foldl anchorStep (pm.blobNodes.foldl pushItem ([], []))

/-- Items after extraction passes 1 and 2. -/
def pass12Items (pm : PageModel) : List IMDBItem := (pass12State pm).1

/-- State after all three extraction passes. -/
def extractState (pm : PageModel) : List IMDBItem × List String :=
  pm.ldEntries.foldl ldStep (pass12State pm)

/-- Record extractor of src/src/tvdb.ts lines 544-735: the items the
three merged passes produce. -/
def parseIMDBListPage (pm : PageModel) : List IMDBItem := (extractState pm).1

/-- Characterisation of the seen-id membership test. -/
theorem hasId_iff (id : String) (l : List String) : hasId id l = true ↔ id ∈ l := by
  induction l with
  | nil => simp [hasId]
  | cons x t ih =>
    by_cases hx : x = id
    · simp [hasId, hx]
    · simp only [hasId, if_neg hx, List.mem_cons, ih]
      constructor
      · exact fun h => Or.inr h
      · rintro (h | h)
        · exact absurd h.symm hx
        · exact h

/-- Appending a fresh element keeps a list duplicate-free. -/
theorem nodup_app_single {α : Type} {l : List α} {a : α} (h : a ∉ l) (hn : l.Nodup) :
    (l ++ [a]).Nodup := by
  induction l with
  | nil => simp
  | cons x t ih =>
    rw [List.cons_append, List.nodup_cons]
    rw [List.nodup_cons] at hn
    obtain ⟨hx, ht⟩ := hn
    have hat : a ∉ t := fun hm => h (List.mem_cons_of_mem _ hm)
    refine ⟨?_, ih hat ht⟩
    intro hmem
    rcases List.mem_append.mp hmem with h1 | h2
    · exact hx h1
    · have hxa : x = a := by simpa using h2
      exact h (by simp [hxa])

/-- Invariant of the extractor state: the seen-id set is exactly the ids
of the collected items, and those ids are duplicate-free. -/
def GoodState (st : List IMDBItem × List String) : Prop :=
  st.2 = st.1.map (fun it => it.imdbId) ∧ (st.1.map (fun it => it.imdbId)).Nodup

/-- Pushing an item whose id is not in the seen set preserves the
invariant. -/
theorem goodState_append {st : List IMDBItem × List String} (hg : GoodState st)
    (it : IMDBItem) (hni : hasId it.imdbId st.2 = false) :
    GoodState (st.1 ++ [it], st.2 ++ [it.imdbId]) := by
  obtain ⟨he, hn⟩ := hg
  have hmem : it.imdbId ∉ st.1.map (fun x => x.imdbId) := by
    rw [← he]
    intro hm
    rw [← hasId_iff, hni] at hm
    exact Bool.false_ne_true hm
  constructor
  · simp [he]
  · simpa using nodup_app_single hmem hn

/-- Pass 1 preserves the extractor-state invariant. -/
theorem pushItem_good (st : List IMDBItem × List String) (node : BlobNode)
    (hg : GoodState st) : GoodState (pushItem st node) := by
  unfold pushItem
  cases hid : nodeId node with
  | none => exact hg
  | some id =>
    cases hseen : hasId id st.2 with
    | true => simpa [hseen] using hg
    | false =>
      cases ht : nodeTitle node with
      | none => simpa [hseen, ht] using hg
      | some title =>
        simp only [hseen, ht, Bool.false_eq_true, if_false]
        exact goodState_append hg _ hseen

/-- Pass 2 preserves the extractor-state invariant. -/
theorem anchorStep_good (st : List IMDBItem × List String) (a : Anchor)
    (hg : GoodState st) : GoodState (anchorStep st a) := by
  unfold anchorStep
  cases hex : extractTT a.href with
  | none => exact hg
  | some id =>
    cases hseen : hasId id st.2 with
    | true => simpa [hseen] using hg
    | false =>
      simp only [hseen, Bool.false_eq_true, if_false]
      exact goodState_append hg _ hseen

/-- Renaming the first matching item cannot change ids when the update
function keeps them. -/
theorem updateFirst_map_imdbId (id : String) (f : IMDBItem → IMDBItem)
    (hf : ∀ x, (f x).imdbId = x.imdbId) (l : List IMDBItem) :
    (updateFirst id f l).map (fun it => it.imdbId) = l.map (fun it => it.imdbId) := by
  induction l with
  | nil => rfl
  | cons x t ih =>
    unfold updateFirst
    by_cases hx : x.imdbId = id
    · simp [hx, hf]
    · simp [hx, ih]

/-- Mutation of pass 3 keeps the primary id. -/
theorem ldUpd_imdbId (e : LDEntry) (it : IMDBItem) : (ldUpd e it).imdbId = it.imdbId := rfl

/-- Pass 3 preserves the extractor-state invariant. -/
theorem ldStep_good (st : List IMDBItem × List String) (e : LDEntry)
    (hg : GoodState st) : GoodState (ldStep st e) := by
  unfold ldStep
  cases hu : e.url with
  | none => exact hg
  | some u =>
    by_cases hue : u = ""
    · simpa [hue] using hg
    · cases hex : extractTT u with
      | none => simpa [hue, hex] using hg
      | some id =>
        cases hit : hasItem id st.1 with
        | true =>
          simp only [hue, hex, hit, if_true, if_false, if_neg hue]
          constructor
          · rw [updateFirst_map_imdbId id (ldUpd e) (ldUpd_imdbId e)]
            exact hg.1
          · rw [updateFirst_map_imdbId id (ldUpd e) (ldUpd_imdbId e)]
            exact hg.2
        | false =>
          cases hseen : hasId id st.2 with
          | true => simpa [hue, hex, hit, hseen] using hg
          | false =>
            simp only [hue, hex, hit, hseen, Bool.false_eq_true, if_false, if_neg hue]
            exact goodState_append hg _ hseen

/-- Fold preservation of a state predicate. -/
theorem foldl_preserves {α : Type} {P : List IMDBItem × List String → Prop}
    (f : List IMDBItem × List String → α → List IMDBItem × List String)
    (hf : ∀ st a, P st → P (f st a)) :
    ∀ (l : List α) (st : List IMDBItem × List String), P st → P (l.foldl f st) := by
  intro l
  induction l with
  | nil => exact fun st h => h
  | cons x t ih => exact fun st h => ih _ (hf st x h)

/-- Claim C7: for every page input, the list returned by the record
extractor contains no two items with the same primary id, regardless of
how many of the three passes observed an id. -/
theorem c7_extractor_dedup (pm : PageModel) :
    ((parseIMDBListPage pm).map (fun it => it.imdbId)).Nodup := by
  have h0 : GoodState ([], []) := ⟨rfl, List.nodup_nil⟩
  have h1 := foldl_preserves pushItem pushItem_good pm.blobNodes ([], []) h0
  have h2 := foldl_preserves anchorStep anchorStep_good pm.anchors _ h1
  have h3 := foldl_preserves ldStep ldStep_good pm.ldEntries _ h2
  exact h3.2

/-- Relation between an item collected by passes 1-2 and its state after
enrichment: same id and title, the type is never downgraded to Unknown
and only changes to a concrete value, and a present non-zero year is
kept. -/
def EnrichPreserves (a b : IMDBItem) : Prop :=
  b.imdbId = a.imdbId ∧ b.title = a.title
    ∧ (b.type = .unknown → a.type = .unknown)
    ∧ (b.type ≠ a.type → b.type ≠ .unknown)
    ∧ (a.year ≠ none → a.year ≠ some 0 → b.year = a.year)

/-- Reflexivity of the enrichment relation. -/
theorem enrichPreserves_refl (a : IMDBItem) : EnrichPreserves a a :=
  ⟨rfl, rfl, fun h => h, fun h => absurd rfl h, fun _ _ => rfl⟩

/-- Transitivity of the enrichment relation. -/
theorem enrichPreserves_trans {a b c : IMDBItem}
    (h1 : EnrichPreserves a b) (h2 : EnrichPreserves b c) : EnrichPreserves a c := by
  obtain ⟨i1, t1, u1, d1, y1⟩ := h1
  obtain ⟨i2, t2, u2, d2, y2⟩ := h2
  refine ⟨i2.trans i1, t2.trans t1, fun h => u1 (u2 h), ?_, ?_⟩
  · intro hne
    by_cases hcb : c.type = b.type
    · rw [hcb]
      exact d1 (fun hba => hne (hcb.trans hba))
    · exact d2 hcb
  · intro hn h0
    have hb := y1 hn h0
    have hbn : b.year ≠ none := by rw [hb]; exact hn
    have hb0 : b.year ≠ some 0 := by rw [hb]; exact h0
    rw [y2 hbn hb0, hb]

/-- Enrichment step of pass 3 on an existing item satisfies the
relation. -/
theorem enrichPreserves_ldUpd (e : LDEntry) (it : IMDBItem) :
    EnrichPreserves it (ldUpd e it) := by
  refine ⟨rfl, rfl, ?_, ?_, ?_⟩
  · intro h
    simp only [ldUpd] at h
    by_cases hm : ldMappedType e ≠ .unknown
    · rw [if_pos hm] at h
      exact absurd h hm
    · rwa [if_neg hm] at h
  · intro hne
    simp only [ldUpd] at hne ⊢
    by_cases hm : ldMappedType e ≠ .unknown
    · rw [if_pos hm]
      exact hm
    · rw [if_neg hm] at hne
      exact absurd rfl hne
  · intro hn h0
    simp only [ldUpd]
    have hf : yearFalsy it.year = false := by
      cases hy : it.year with
      | none => exact absurd hy hn
      | some n =>
        cases n with
        | zero => exact absurd hy h0
        | succ m => simp [yearFalsy]
    rw [hf]
    simp

/-- Every member of a list survives updateFirst, either unchanged or
passed through the update function. -/
theorem updateFirst_mem (id : String) (f : IMDBItem → IMDBItem) :
    ∀ (l : List IMDBItem) (y : IMDBItem), y ∈ l →
      ∃ y', y' ∈ updateFirst id f l ∧ (y' = y ∨ y' = f y) := by
  intro l
  induction l with
  | nil => exact fun y h => absurd h (List.not_mem_nil y)
  | cons x t ih =>
    intro y hy
    unfold updateFirst
    by_cases hx : x.imdbId = id
    · rw [if_pos hx]
      rcases List.mem_cons.mp hy with h | h
      · subst h
        exact ⟨f y, List.mem_cons_self _ _, Or.inr rfl⟩
      · exact ⟨y, List.mem_cons_of_mem _ h, Or.inl rfl⟩
    · rw [if_neg hx]
      rcases List.mem_cons.mp hy with h | h
      · subst h
        exact ⟨y, List.mem_cons_self _ _, Or.inl rfl⟩
      · obtain ⟨y', hy', hor⟩ := ih y h
        exact ⟨y', List.mem_cons_of_mem _ hy', hor⟩

/-- Single pass-3 step: every item already collected has a successor
satisfying the enrichment relation. -/
theorem ldStep_pres (st : List IMDBItem × List String) (e : LDEntry) (y : IMDBItem)
    (hy : y ∈ st.1) : ∃ y', y' ∈ (ldStep st e).1 ∧ EnrichPreserves y y' := by
  unfold ldStep
  cases hu : e.url with
  | none => exact ⟨y, hy, enrichPreserves_refl y⟩
  | some u =>
    by_cases hue : u = ""
    · simp only [hue, if_pos rfl]
      exact ⟨y, hy, enrichPreserves_refl y⟩
    · simp only [if_neg hue]
      cases hex : extractTT u with
      | none => exact ⟨y, hy, enrichPreserves_refl y⟩
      | some id =>
        dsimp only
        cases hit : hasItem id st.1 with
        | true =>
          rw [if_pos rfl]
          obtain ⟨y', h1, h2⟩ := updateFirst_mem id (ldUpd e) st.1 y hy
          refine ⟨y', h1, ?_⟩
          rcases h2 with h | h
          · rw [h]
            exact enrichPreserves_refl y
          · rw [h]
            exact enrichPreserves_ldUpd e y
        | false =>
          simp only [hit, Bool.false_eq_true, if_false]
          cases hseen : hasId id st.2 with
          | true =>
            rw [if_pos rfl]
            exact ⟨y, hy, enrichPreserves_refl y⟩
          | false =>
            simp only [hseen, Bool.false_eq_true, if_false]
            exact ⟨y, List.mem_append_left _ hy, enrichPreserves_refl y⟩

/-- Fold of pass 3 over all linked-data entries: every item collected by
passes 1-2 has a successor satisfying the enrichment relation. -/
theorem ldFold_pres (es : List LDEntry) :
    ∀ (st : List IMDBItem × List String) (y : IMDBItem), y ∈ st.1 →
      ∃ y', y' ∈ (es.foldl ldStep st).1 ∧ EnrichPreserves y y' := by
  induction es with
  | nil => exact fun st y hy => ⟨y, hy, enrichPreserves_refl y⟩
  | cons e es ih =>
    intro st y hy
    obtain ⟨m, hm, hpm⟩ := ldStep_pres st e y hy
    obtain ⟨y', hy', hp'⟩ := ih (ldStep st e) m hm
    exact ⟨y', hy', enrichPreserves_trans hpm hp'⟩

/-- Page whose blob item carries the year zero (its release date starts
with four zero digits, and a zero falls through the JavaScript or-chain
as the last alternative), and whose linked-data entry carries a real
publication date for the same id. -/
def c8Page : PageModel :=
  { blobNodes := [{ idField := some "tt1", titleField := some "T",
                    releaseDate := some "0000-01-01" }]
    anchors := []
    ldEntries := [{ url := some "https://www.imdb.com/title/tt1/",
                    datePublished := some "1999-05-05" }] }

/-- Counterexample to claim C8 as stated: after passes 1-2 the item for
tt1 has the present year zero, yet the linked-data pass overwrites it
with 1999, because the source guards the year fill with JavaScript
falsiness (absent or zero) rather than absence. -/
theorem c8_counterexample :
    pass12Items c8Page = [⟨"tt1", "T", .unknown, some 0⟩]
    ∧ parseIMDBListPage c8Page = [⟨"tt1", "T", .unknown, some 1999⟩] := by
  constructor
  · decide
  · decide

/-- Amended claim C8: for every item collected by passes 1-2, the
linked-data pass keeps its id and title, never downgrades its type to
Unknown and only changes the type to a concrete value, and keeps a
stored year that is present and non-zero; the year may be filled only
when it is absent or zero (JavaScript falsy). -/
theorem c8_enrichment_frame (pm : PageModel) (it : IMDBItem)
    (h : it ∈ pass12Items pm) :
    ∃ it', it' ∈ parseIMDBListPage pm ∧ it'.imdbId = it.imdbId ∧ it'.title = it.title
      ∧ (it'.type = .unknown → it.type = .unknown)
      ∧ (it'.type ≠ it.type → it'.type ≠ .unknown)
      ∧ (it.year ≠ none → it.year ≠ some 0 → it'.year = it.year) := by
  obtain ⟨it', h1, h2⟩ := ldFold_pres pm.ldEntries (pass12State pm) it h
  exact ⟨it', h1, h2⟩

/-- Witness page for the enrichment frame property. -/
def c8WPage : PageModel :=
  { blobNodes := [{ idField := some "tt9", titleField := some "W",
                    releaseYearYear := some 2004 }]
    anchors := []
    ldEntries := [{ url := some "/title/tt9/", atType := some "TVSeries",
                    datePublished := some "2011-01-01" }] }

/-- Witness for c8_enrichment_frame at a concrete page. -/
theorem c8_enrichment_frame_witness :
    (⟨"tt9", "W", .unknown, some 2004⟩ : IMDBItem) ∈ pass12Items c8WPage
    ∧ ∃ it', it' ∈ parseIMDBListPage c8WPage
        ∧ it'.imdbId = (⟨"tt9", "W", .unknown, some 2004⟩ : IMDBItem).imdbId
        ∧ it'.title = (⟨"tt9", "W", .unknown, some 2004⟩ : IMDBItem).title
        ∧ (it'.type = .unknown → (⟨"tt9", "W", .unknown, some 2004⟩ : IMDBItem).type = .unknown)
        ∧ (it'.type ≠ (⟨"tt9", "W", .unknown, some 2004⟩ : IMDBItem).type → it'.type ≠ .unknown)
        ∧ ((⟨"tt9", "W", .unknown, some 2004⟩ : IMDBItem).year ≠ none →
            (⟨"tt9", "W", .unknown, some 2004⟩ : IMDBItem).year ≠ some 0 →
            it'.year = (⟨"tt9", "W", .unknown, some 2004⟩ : IMDBItem).year) :=
  ⟨by decide, c8_enrichment_frame c8WPage ⟨"tt9", "W", .unknown, some 2004⟩ (by decide)⟩

/-- Options of fetchIMDBList (src/src/tvdb.ts lines 273-292). -/
structure FetchIMDBListOptions where
  fetchAll : Bool := true
  maxItems : Option Nat := none
  page : Option Nat := none

/-- Outcome of the aggregator: the items returned and the number of page
fetches performed. -/
structure FetchOutcome where
  items : List IMDBItem
  fetches : Nat
deriving DecidableEq

/-- Truthy cap check of the aggregation loop: maxItems is supplied and
non-zero (JavaScript truthiness) and the accumulated count reached
it. -/
def capReached (maxItems : Option Nat) (n : Nat) : Bool :=
  match maxItems with
  | some m => decide (m ≠ 0) && decide (m ≤ n)
  | none => false

/-- Inner loop of the aggregator over one page of items: append items
whose id is unseen, stopping once the cap is reached; returns the items,
the seen ids and the number of items added. -/
def addNewItems (maxItems : Option Nat) : List IMDBItem → List IMDBItem → List String →
    List IMDBItem × List String × Nat
  | [], acc, seen => (acc, seen, 0)
  | it :: rest, acc, seen =>
    if hasId it.imdbId seen then addNewItems maxItems rest acc seen
    else if capReached maxItems (acc.length + 1) then (acc ++ [it], seen ++ [it.imdbId], 1)
    else
      let r := addNewItems maxItems rest (acc ++ [it]) (seen ++ [it.imdbId])
      (r.1, r.2.1, r.2.2 + 1)

/-- While loop of the aggregator over pages 2..totalPages: stops at the
cap, on a failed page fetch (the thrown error is absorbed), or when a
page contributes no new item. -/
def aggLoop (pages : Nat → Option (List IMDBItem)) (maxItems : Option Nat)
    (totalPages : Nat) (currentPage : Nat) (acc : List IMDBItem) (seen : List String)
    (fetches : Nat) : List IMDBItem × Nat :=
  if _h : currentPage ≤ totalPages then
    if capReached maxItems acc.length then (acc, fetches)
    else
      match pages currentPage with
      | none => (acc, fetches + 1)
      | some pageItems =>
        let r := addNewItems maxItems pageItems acc seen
        if r.2.2 = 0 then (r.1, fetches + 1)
        else aggLoop pages maxItems totalPages (currentPage + 1) r.1 r.2.1 (fetches + 1)
  else (acc, fetches)
termination_by totalPages + 1 - currentPage
decreasing_by omega

/-- Page aggregator of src/src/tvdb.ts lines 419-539, over an abstract
page-fetch collaborator (none models a thrown page fetch) and the
declared total parsed from the first page by extractListMetadata.  The
result is none when the first page fetch throws. -/
def fetchIMDBList (pages : Nat → Option (List IMDBItem)) (metaTotal : Nat)
    (opts : FetchIMDBListOptions) : Option FetchOutcome :=
  match pages (match opts.page with | some p => if p = 0 then 1 else p | none => 1) with
  | none => none
  | some firstPageItems =>
    let effectiveTotal := if metaTotal ≠ 0 then metaTotal else firstPageItems.length
    let totalPages := (effectiveTotal + 249) / 250
    if !opts.fetchAll || opts.page.isSome || decide (totalPages ≤ 1) then
      some ⟨firstPageItems, 1⟩
    else
      let r := aggLoop pages opts.maxItems totalPages 2 firstPageItems
        (firstPageItems.map (fun it => it.imdbId)) 1
      some ⟨(match opts.maxItems with
             | some m => if m ≠ 0 then r.1.take m else r.1
             | none => r.1), r.2⟩

/-- First item of the cap counterexample page. -/
def c2ItemA : IMDBItem := ⟨"tt1", "A", .unknown, none⟩

/-- Second item of the cap counterexample page. -/
def c2ItemB : IMDBItem := ⟨"tt2", "B", .unknown, none⟩

/-- Page source of the cap counterexample: every page holds two items. -/
def c2pages : Nat → Option (List IMDBItem) := fun _ => some [c2ItemA, c2ItemB]

/-- Counterexample to claim C2 as stated: with fetchAll false and a cap
of one item, the single-page path returns the first page untrimmed, so
the returned list has two items, exceeding the supplied cap. -/
theorem c2_counterexample :
    (fetchIMDBList c2pages 0 ⟨false, some 1, none⟩).map (fun r => r.items.length) = some 2
    ∧ ¬ ((2 : Nat) ≤ 1) := by
  constructor
  · decide
  · decide

/-- Amended claim C2: the cap is enforced only on the multi-page
fetch-all path (fetchAll true, no explicit page, and more than one page
derived from the effective total): there the returned item list is
trimmed to at most maxItems.  The single-page modes return the first
page untrimmed. -/
theorem c2_cap_multi_page (pages : Nat → Option (List IMDBItem)) (metaTotal m : Nat)
    (fp : List IMDBItem) (r : FetchOutcome)
    (hm : m ≠ 0) (h1 : pages 1 = some fp)
    (h2 : 250 < if metaTotal ≠ 0 then metaTotal else fp.length)
    (hr : fetchIMDBList pages metaTotal ⟨true, some m, none⟩ = some r) :
    r.items.length ≤ m := by
  have htp : ¬ (((if metaTotal ≠ 0 then metaTotal else fp.length) + 249) / 250 ≤ 1) := by
    intro hle
    have hlt : (if metaTotal ≠ 0 then metaTotal else fp.length) + 249 < 2 * 250 :=
      (Nat.div_lt_iff_lt_mul (by norm_num)).mp (Nat.lt_succ_of_le hle)
    omega
  simp only [fetchIMDBList, h1, Bool.not_true, Option.isSome_none, Bool.false_or,
    decide_eq_true_eq] at hr
  rw [if_neg htp, if_pos hm] at hr
  have hx := Option.some.inj hr
  rw [← hx]
  exact List.length_take_le m _

/-- Witness item for the aggregator theorems. -/
def c2WItem : IMDBItem := ⟨"tt7", "C", .unknown, none⟩

/-- Witness page source: page one holds one item, later fetches
throw. -/
def c2wpages : Nat → Option (List IMDBItem) := fun n => if n = 1 then some [c2WItem] else none

/-- Witness for c2_cap_multi_page: with a declared total of 300 and a
cap of 1, the multi-page path returns at most one item. -/
theorem c2_cap_multi_page_witness :
    c2wpages 1 = some [c2WItem]
    ∧ (250 < if (300 : Nat) ≠ 0 then 300 else ([c2WItem] : List IMDBItem).length)
    ∧ (fetchIMDBList c2wpages 300 ⟨true, some 1, none⟩ = some ⟨[c2WItem], 1⟩)
    ∧ (⟨[c2WItem], 1⟩ : FetchOutcome).items.length ≤ 1 :=
  have hfetch : fetchIMDBList c2wpages 300 ⟨true, some 1, none⟩ = some ⟨[c2WItem], 1⟩ := by
    have hagg : aggLoop c2wpages (some 1) 2 2 [c2WItem] [c2WItem.imdbId] 1 = ([c2WItem], 1) := by
      unfold aggLoop
      norm_num [capReached]
    simp only [fetchIMDBList, c2wpages]
    norm_num [hagg]
  ⟨by decide, by decide, hfetch,
   c2_cap_multi_page c2wpages 300 1 [c2WItem] ⟨[c2WItem], 1⟩ (by decide) (by decide)
     (by decide) hfetch⟩

/-- Claim C10: when the page metadata exposes no total (metaTotal zero),
the aggregator uses the first page item count as the effective total,
so when the first page yields at most 250 items the derived page count
is at most one and fetch-all mode returns exactly the first page items
after a single page fetch, whatever the later pages hold. -/
theorem c10_unknown_total_single_page (pages : Nat → Option (List IMDBItem))
    (fp : List IMDBItem) (maxItems : Option Nat)
    (h1 : pages 1 = some fp) (h2 : fp.length ≤ 250) :
    fetchIMDBList pages 0 ⟨true, maxItems, none⟩ = some ⟨fp, 1⟩ := by
  have htp : (fp.length + 249) / 250 ≤ 1 := by
    have hlt : fp.length + 249 < 2 * 250 := by omega
    exact Nat.le_of_lt_succ ((Nat.div_lt_iff_lt_mul (by norm_num)).mpr hlt)
  simp only [fetchIMDBList, h1, Bool.not_true, Option.isSome_none, Bool.false_or,
    decide_eq_true_eq]
  rw [if_pos]
  simpa using htp

/-- Witness page source for the unknown-total theorem: page one holds
one item, every later page holds two more. -/
def c10pages : Nat → Option (List IMDBItem) :=
  fun n => if n = 1 then some [c2WItem] else some [c2ItemA, c2ItemB]

/-- Witness for c10_unknown_total_single_page at a source whose later
pages do hold further items. -/
theorem c10_unknown_total_single_page_witness :
    c10pages 1 = some [c2WItem]
    ∧ ([c2WItem] : List IMDBItem).length ≤ 250
    ∧ fetchIMDBList c10pages 0 ⟨true, none, none⟩ = some ⟨[c2WItem], 1⟩ :=
  ⟨by decide, by decide,
   c10_unknown_total_single_page c10pages [c2WItem] none (by decide) (by decide)⟩

/-- Resolved identifier record of the data model: the TVDB id, the TMDB
id of the intermediate candidate, and the resolved title. -/
structure Resolved where
  tvdbId : Nat
  tmdbId : Option Nat
  title : String
deriving DecidableEq

/-- Element of the tv results list of the TMDB find response. -/
structure TVResult where
  id : Nat
  name : String
deriving DecidableEq

/-- External ids record of the TMDB external ids response (only the
fields the resolver reads). -/
structure TMDBExternalIds where
  id : Nat
  tvdb_id : Option Nat
deriving DecidableEq

/-- Outcome of the find-by-external-id collaborator call: a non-success
status, a thrown transport error, or a parsed body with its tv results
list. -/
inductive FindOutcome
  | httpError
  | transportError
  | ok (tv_results : List TVResult)

/-- Outcome of the external-ids collaborator call. -/
inductive ExtOutcome
  | httpError
  | transportError
  | ok (ids : TMDBExternalIds)

/-- Lookup of src/src/tvdb.ts lines 31-55 (findByIMDBId): a missing
credential throws before the fetch; a non-success status or a thrown
transport error is absorbed into a null result; an empty tv results
list is null; otherwise the first element wins. -/
def findByIMDBId (apiKey : Option String) (findResp : String → FindOutcome)
    (imdbId : String) : Except Unit (Option TVResult) :=
  match apiKey with
  | none => .error ()
  | some _ =>
    match findResp imdbId with
    | .httpError => .ok none
    | .transportError => .ok none
    | .ok [] => .ok none
    | .ok (s :: _) => .ok (some s)

/-- Lookup of src/src/tvdb.ts lines 60-76 (getExternalIds), with the
same error absorption. -/
def getExternalIds (apiKey : Option String) (extResp : Nat → ExtOutcome)
    (tmdbId : Nat) : Except Unit (Option TMDBExternalIds) :=
  match apiKey with
  | none => .error ()
  | some _ =>
    match extResp tmdbId with
    | .httpError => .ok none
    | .transportError => .ok none
    | .ok e => .ok (some e)

/-- Cache of resolved identifiers, keyed by primary id; newer entries
shadow older ones. -/
def cacheGet : List (String × Resolved) → String → Option Resolved
  | [], _ => none
  | (k, v) :: t, id => if k = id then some v else cacheGet t id

/-- Insertion into the resolution cache. -/
def cacheSet (c : List (String × Resolved)) (id : String) (r : Resolved) :
    List (String × Resolved) := (id, r) :: c

/-- Flush of the resolution cache (src/src/tvdb.ts lines 175-178). -/
def clearCache (_c : List (String × Resolved)) : List (String × Resolved) := []

/-- Truthiness of the tvdb id field read from the external ids body. -/
def tvdbTruthy : Option Nat → Bool
  | some t => t != 0
  | none => false

/-- Resolver of src/src/tvdb.ts lines 81-118 (resolveIMDBToTVDB) over
the two collaborator oracles: checks the cache first, then chains the
two lookups; a miss leaves the cache unchanged, a success is written
into the cache before returning.  The result carries the updated cache
and the number of external calls performed. -/
def resolveIMDBToTVDB (apiKey : Option String) (findResp : String → FindOutcome)
    (extResp : Nat → ExtOutcome) (c : List (String × Resolved)) (imdbId : String) :
    Except Unit (Option Resolved × List (String × Resolved) × Nat) :=
  match cacheGet c imdbId with
  | some cached => .ok (some cached, c, 0)
  | none =>
    match findByIMDBId apiKey findResp imdbId with
    | .error e => .error e
    | .ok none => .ok (none, c, 1)
    | .ok (some fr) =>
      match getExternalIds apiKey extResp fr.id with
      | .error e => .error e
      | .ok extIds =>
        match (match extIds with | some x => x.tvdb_id | none => none) with
        | none => .ok (none, c, 2)
        | some t =>
          if t = 0 then .ok (none, c, 2)
          else .ok (some ⟨t, some fr.id, fr.name⟩, cacheSet c imdbId ⟨t, some fr.id, fr.name⟩, 2)

/-- Whether the find step yields no candidate. -/
def findMisses : FindOutcome → Bool
  | .ok (_ :: _) => false
  | _ => true

/-- Whether the two-step lookup for an id resolves to nothing: the find
step yields no candidate, or the external-ids step for the first
candidate yields no truthy tvdb id. -/
def resolutionMisses (findResp : String → FindOutcome) (extResp : Nat → ExtOutcome)
    (imdbId : String) : Bool :=
  match findResp imdbId with
  | .ok (s :: _) =>
    (match extResp s.id with
     | .ok x => !(tvdbTruthy x.tvdb_id)
     | _ => true)
  | _ => true

/-- Number of external calls a cache-missing resolution performs when it
yields nothing: one when the find step already failed, two
otherwise. -/
def missCalls (findResp : String → FindOutcome) (imdbId : String) : Nat :=
  if findMisses (findResp imdbId) then 1 else 2

/-- Output record of the Sonarr custom-list shape (src/src/types.ts). -/
structure SonarrSeries where
  TvdbId : Nat
  Title : Option String
  TmdbId : Option Nat
  ImdbId : Option String
deriving DecidableEq

/-- Per-item body of the batch converter (src/src/tvdb.ts lines
133-151): a thrown resolution error is caught and the item dropped, a
miss drops the item, a success builds the output record; the Title
falls back to the item title when the resolved title is empty, and
TmdbId is set only when the resolved TMDB id is truthy. -/
def convertItem (resolver : String → Except Unit (Option Resolved)) (item : IMDBItem) :
    Option SonarrSeries :=
  match resolver item.imdbId with
  | .error _ => none
  | .ok none => none
  | .ok (some r) =>
    some { TvdbId := r.tvdbId
           Title := some (if r.title = "" then item.title else r.title)
           TmdbId := match r.tmdbId with
                     | some t => if t = 0 then none else some t
                     | none => none
           ImdbId := some item.imdbId }

/-- Batch converter of src/src/tvdb.ts lines 124-163
(convertToSonarrFormat): processes the items in slices of five,
appending the non-null results of each batch before the next one. -/
def convertToSonarrFormat (resolver : String → Except Unit (Option Resolved))
    (items : List IMDBItem) : List SonarrSeries :=
  if hemp : items = [] then []
  else ((items.take 5).filterMap (convertItem resolver))
    ++ convertToSonarrFormat resolver (items.drop 5)
termination_by items.length
decreasing_by
  have hp : 0 < items.length := List.length_pos.mpr hemp
  simp [List.length_drop]
  omega

/-- Batched accumulation equals a plain filterMap over the items. -/
theorem convertToSonarrFormat_eq (resolver : String → Except Unit (Option Resolved))
    (items : List IMDBItem) :
    convertToSonarrFormat resolver items = items.filterMap (convertItem resolver) := by
  have H : ∀ (n : Nat) (l : List IMDBItem), l.length ≤ n →
      convertToSonarrFormat resolver l = l.filterMap (convertItem resolver) := by
    intro n
    induction n with
    | zero =>
      intro l hl
      have hz : l = [] := List.eq_nil_of_length_eq_zero (Nat.le_zero.mp hl)
      subst hz
      unfold convertToSonarrFormat
      simp
    | succ n ih =>
      intro l hl
      unfold convertToSonarrFormat
      by_cases h : l = []
      · simp [h]
      · rw [dif_neg h]
        rw [ih (l.drop 5) (by
          have hp : 0 < l.length := List.length_pos.mpr h
          simp [List.length_drop]
          omega)]
        rw [← List.filterMap_append, List.take_append_drop]
  exact H items.length items le_rfl

/-- Length of a filterMap as the length of a filter on definedness. -/
theorem length_filterMap_isSome (f : IMDBItem → Option SonarrSeries) (l : List IMDBItem) :
    (l.filterMap f).length = (l.filter (fun a => (f a).isSome)).length := by
  induction l with
  | nil => rfl
  | cons x t ih =>
    cases hx : f x with
    | none => simp [List.filterMap_cons, List.filter_cons, hx, ih]
    | some v => simp [List.filterMap_cons, List.filter_cons, hx, ih]

/-- Claim C9: the batch converter emits exactly one output record per
input item whose resolution succeeds, with TvdbId the resolved
secondary id, ImdbId the item primary id, Title the resolved title
unless that title is empty (then the item title), and TmdbId present
only when the resolved auxiliary id is truthy (zero omitted); failed
or thrown resolutions contribute nothing. -/
theorem c9_converter_fields (resolver : String → Except Unit (Option Resolved))
    (items : List IMDBItem) :
    convertToSonarrFormat resolver items
      = items.filterMap (fun item =>
          match resolver item.imdbId with
          | .error _ => none
          | .ok none => none
          | .ok (some r) =>
            some { TvdbId := r.tvdbId
                   Title := some (if r.title = "" then item.title else r.title)
                   TmdbId := match r.tmdbId with
                             | some t => if t = 0 then none else some t
                             | none => none
                   ImdbId := some item.imdbId })
    ∧ (convertToSonarrFormat resolver items).length
        = (items.filter (fun item =>
            match resolver item.imdbId with
            | .ok (some _) => true
            | _ => false)).length := by
  constructor
  · rw [convertToSonarrFormat_eq]
    rfl
  · rw [convertToSonarrFormat_eq, length_filterMap_isSome]
    have hpred : (fun a => (convertItem resolver a).isSome)
        = (fun item : IMDBItem =>
            match resolver item.imdbId with
            | .ok (some _) => true
            | _ => false) := by
      funext item
      cases hr : resolver item.imdbId with
      | error e => simp [convertItem, hr]
      | ok o =>
        cases o with
        | none => simp [convertItem, hr]
        | some r => simp [convertItem, hr]
    rw [hpred]

/-- Claim C3: a first successful resolution of an uncached id makes two
external calls and writes the cache; a second call for the same id is
served from the cache with zero external calls and the same result;
after an explicit flush the next call performs both external calls
again and re-derives the same resolved identifier. -/
theorem c3_cache_hit_and_flush (k : String) (findResp : String → FindOutcome)
    (extResp : Nat → ExtOutcome) (c : List (String × Resolved)) (imdbId : String)
    (r : Resolved) (c' : List (String × Resolved)) (n : Nat)
    (hc : cacheGet c imdbId = none)
    (h : resolveIMDBToTVDB (some k) findResp extResp c imdbId = .ok (some r, c', n)) :
    n = 2
    ∧ resolveIMDBToTVDB (some k) findResp extResp c' imdbId = .ok (some r, c', 0)
    ∧ resolveIMDBToTVDB (some k) findResp extResp (clearCache c') imdbId
        = .ok (some r, cacheSet (clearCache c') imdbId r, 2) := by
  cases hf : findResp imdbId with
  | httpError => simp [resolveIMDBToTVDB, findByIMDBId, hc, hf] at h
  | transportError => simp [resolveIMDBToTVDB, findByIMDBId, hc, hf] at h
  | ok tvs =>
    cases tvs with
    | nil => simp [resolveIMDBToTVDB, findByIMDBId, hc, hf] at h
    | cons s rest =>
      cases he : extResp s.id with
      | httpError => simp [resolveIMDBToTVDB, findByIMDBId, getExternalIds, hc, hf, he] at h
      | transportError => simp [resolveIMDBToTVDB, findByIMDBId, getExternalIds, hc, hf, he] at h
      | ok x =>
        cases hx : x.tvdb_id with
        | none => simp [resolveIMDBToTVDB, findByIMDBId, getExternalIds, hc, hf, he, hx] at h
        | some t =>
          by_cases ht : t = 0
          · simp [resolveIMDBToTVDB, findByIMDBId, getExternalIds, hc, hf, he, hx, ht] at h
          · simp only [resolveIMDBToTVDB, findByIMDBId, getExternalIds, hc, hf, he, hx,
              if_neg ht] at h
            rw [Except.ok.injEq, Prod.mk.injEq, Prod.mk.injEq, Option.some.injEq] at h
            obtain ⟨hr, hc', hn⟩ := h
            refine ⟨hn.symm, ?_, ?_⟩
            · rw [← hc', ← hr]
              simp [resolveIMDBToTVDB, cacheSet, cacheGet]
            · rw [← hr]
              simp [clearCache, resolveIMDBToTVDB, findByIMDBId, getExternalIds,
                cacheGet, cacheSet, hf, he, hx, ht]

/-- Find oracle of the successful-resolution witness. -/
def c3find : String → FindOutcome := fun _ => .ok [⟨7, "Show"⟩]

/-- External-ids oracle of the successful-resolution witness. -/
def c3ext : Nat → ExtOutcome := fun _ => .ok ⟨7, some 42⟩

/-- Witness for c3_cache_hit_and_flush at concrete oracles. -/
theorem c3_cache_hit_and_flush_witness :
    cacheGet ([] : List (String × Resolved)) "tt5" = none
    ∧ resolveIMDBToTVDB (some "key") c3find c3ext [] "tt5"
        = .ok (some ⟨42, some 7, "Show"⟩, [("tt5", ⟨42, some 7, "Show"⟩)], 2)
    ∧ ((2 : Nat) = 2
       ∧ resolveIMDBToTVDB (some "key") c3find c3ext [("tt5", ⟨42, some 7, "Show"⟩)] "tt5"
           = .ok (some ⟨42, some 7, "Show"⟩, [("tt5", ⟨42, some 7, "Show"⟩)], 0)
       ∧ resolveIMDBToTVDB (some "key") c3find c3ext
             (clearCache [("tt5", ⟨42, some 7, "Show"⟩)]) "tt5"
           = .ok (some ⟨42, some 7, "Show"⟩,
               cacheSet (clearCache [("tt5", ⟨42, some 7, "Show"⟩)]) "tt5" ⟨42, some 7, "Show"⟩,
               2)) :=
  ⟨rfl, rfl,
   c3_cache_hit_and_flush "key" c3find c3ext [] "tt5" ⟨42, some 7, "Show"⟩
     [("tt5", ⟨42, some 7, "Show"⟩)] 2 rfl rfl⟩

/-- Claim C4: with the credential present and the id uncached, the
resolver returns null exactly when the lookup misses (no tv candidate,
or no truthy tvdb id from the second call, where a non-success status
or a thrown transport error counts as no result); it never propagates
an error in that setting, and on a miss the cache is left unchanged and
the call count names the external lookups re-performed by any repeat
call. -/
theorem c4_miss_semantics (k : String) (findResp : String → FindOutcome)
    (extResp : Nat → ExtOutcome) (c : List (String × Resolved)) (imdbId : String)
    (hc : cacheGet c imdbId = none) :
    (resolveIMDBToTVDB (some k) findResp extResp c imdbId
        = .ok (none, c, missCalls findResp imdbId)
      ↔ resolutionMisses findResp extResp imdbId = true)
    ∧ resolveIMDBToTVDB (some k) findResp extResp c imdbId ≠ .error () := by
  cases hf : findResp imdbId with
  | httpError =>
    simp [resolveIMDBToTVDB, findByIMDBId, resolutionMisses, missCalls, findMisses, hc, hf]
  | transportError =>
    simp [resolveIMDBToTVDB, findByIMDBId, resolutionMisses, missCalls, findMisses, hc, hf]
  | ok tvs =>
    cases tvs with
    | nil =>
      simp [resolveIMDBToTVDB, findByIMDBId, resolutionMisses, missCalls, findMisses, hc, hf]
    | cons s rest =>
      cases he : extResp s.id with
      | httpError =>
        simp [resolveIMDBToTVDB, findByIMDBId, getExternalIds, resolutionMisses,
          missCalls, findMisses, hc, hf, he]
      | transportError =>
        simp [resolveIMDBToTVDB, findByIMDBId, getExternalIds, resolutionMisses,
          missCalls, findMisses, hc, hf, he]
      | ok x =>
        cases hx : x.tvdb_id with
        | none =>
          simp [resolveIMDBToTVDB, findByIMDBId, getExternalIds, resolutionMisses,
            missCalls, findMisses, tvdbTruthy, hc, hf, he, hx]
        | some t =>
          by_cases ht : t = 0
          · simp [resolveIMDBToTVDB, findByIMDBId, getExternalIds, resolutionMisses,
              missCalls, findMisses, tvdbTruthy, hc, hf, he, hx, ht]
          · simp [resolveIMDBToTVDB, findByIMDBId, getExternalIds, resolutionMisses,
              missCalls, findMisses, tvdbTruthy, hc, hf, he, hx, ht]

/-- Find oracle of the miss witness: no tv candidate. -/
def c4find : String → FindOutcome := fun _ => .ok []

/-- External-ids oracle of the miss witness. -/
def c4ext : Nat → ExtOutcome := fun _ => .ok ⟨0, none⟩

/-- Witness for c4_miss_semantics at concrete oracles. -/
theorem c4_miss_semantics_witness :
    cacheGet ([] : List (String × Resolved)) "tt2" = none
    ∧ ((resolveIMDBToTVDB (some "key") c4find c4ext [] "tt2"
          = .ok (none, [], missCalls c4find "tt2")
        ↔ resolutionMisses c4find c4ext "tt2" = true)
       ∧ resolveIMDBToTVDB (some "key") c4find c4ext [] "tt2" ≠ .error ()) :=
  ⟨rfl, c4_miss_semantics "key" c4find c4ext [] "tt2" rfl⟩

/-- Find oracle used by the missing-credential theorems; its answers
are never reached because the key check throws first. -/
def c5find : String → FindOutcome := fun _ => .ok [⟨7, "Show"⟩]

/-- External-ids oracle used by the missing-credential theorems. -/
def c5ext : Nat → ExtOutcome := fun _ => .ok ⟨7, some 42⟩

/-- Input item of the missing-credential counterexample. -/
def c5Item : IMDBItem := ⟨"tt1", "A", .tvSeries, none⟩

/-- Counterexample to claim C5 as stated: with no credential the
resolver itself raises the configuration error, but driving the same
resolution through the batch converter yields the ordinary empty
output list: the converter catches the per-item error and drops the
item as a miss instead of surfacing the error. -/
theorem c5_counterexample :
    resolveIMDBToTVDB none c5find c5ext [] "tt1" = .error ()
    ∧ convertToSonarrFormat
        (fun id => (resolveIMDBToTVDB none c5find c5ext [] id).map Prod.fst) [c5Item] = [] := by
  constructor
  · rfl
  · rw [convertToSonarrFormat_eq]
    rfl

/-- Amended claim C5: a missing credential makes any uncached
resolution raise the configuration error to the direct caller of the
resolver, but the batch converter catches per-item errors, so through
convertToSonarrFormat the missing credential manifests as every item
being dropped (an empty output), not as a surfaced error. -/
theorem c5_missing_key_behavior (findResp : String → FindOutcome)
    (extResp : Nat → ExtOutcome) :
    (∀ (c : List (String × Resolved)) (imdbId : String), cacheGet c imdbId = none →
        resolveIMDBToTVDB none findResp extResp c imdbId = .error ())
    ∧ (∀ items : List IMDBItem,
        convertToSonarrFormat
          (fun id => (resolveIMDBToTVDB none findResp extResp [] id).map Prod.fst)
          items = []) := by
  constructor
  · intro c imdbId hc
    simp [resolveIMDBToTVDB, findByIMDBId, hc]
  · intro items
    rw [convertToSonarrFormat_eq]
    rw [List.filterMap_eq_nil_iff]
    intro item _
    simp [convertItem, resolveIMDBToTVDB, findByIMDBId, cacheGet, Except.map]

/-- Witness input item of the missing-credential witness. -/
def c5WItem : IMDBItem := ⟨"tt4", "B", .unknown, none⟩

/-- Witness for c5_missing_key_behavior at concrete oracles. -/
theorem c5_missing_key_behavior_witness :
    cacheGet ([] : List (String × Resolved)) "tt3" = none
    ∧ resolveIMDBToTVDB none c5find c5ext [] "tt3" = .error ()
    ∧ convertToSonarrFormat
        (fun id => (resolveIMDBToTVDB none c5find c5ext [] id).map Prod.fst) [c5WItem] = [] :=
  ⟨rfl, (c5_missing_key_behavior c5find c5ext).1 [] "tt3" rfl,
   (c5_missing_key_behavior c5find c5ext).2 [c5WItem]⟩
